import Mathlib

/-!
Verification development for scripts/install-snippets.py: a shallow
embedding of the Asset Resolver (read_script and the loading loop of
main) and the Protocol Installer (install_via_cdp), followed by theorems
about the claims of the design document.
-/

/-- JSON values, as produced by json.loads on a reply text. -/
inductive Json where
  | null
  | bool (b : Bool)
  | num (n : Int)
  | str (s : String)
  | arr (elems : List Json)
  | obj (fields : List (String × Json))

/-- Python dict.get(key, default). On a non-dict receiver the attribute
lookup of .get raises AttributeError, modelled as the error case.
Duplicate keys cannot arise from json.loads output (last one wins there),
so association-list lookup is faithful. -/
def pyGet (j : Json) (key : String) (default : Json) : Except Unit Json :=
  match j with
  | Json.obj fields => Except.ok ((fields.lookup key).getD default)
  | _ => Except.error ()

/-- Line 191: result.get(\x27result\x27, \x7b\x7d).get(\x27result\x27, \x7b\x7d).get(\x27value\x27, \x27Unknown result\x27),
the chained extraction of the nested reply value. -/
def extractOutcome (reply : Json) : Except Unit Json :=
  match pyGet reply "result" (Json.obj []) with
  | Except.error e => Except.error e
  | Except.ok a =>
    match pyGet a "result" (Json.obj []) with
    | Except.error e => Except.error e
    | Except.ok b => pyGet b "value" (Json.str "Unknown result")

/-- Modelled from the spec: a total lookup that reads a key of an object
and falls back to the default in every other case (the spec words say the
core reads the doubly nested path, defaulting to a placeholder when any
level is missing). For comparison with extractOutcome. -/
def specGet (j : Json) (key : String) (default : Json) : Json :=
  match j with
  | Json.obj fields => (fields.lookup key).getD default
  | _ => default

/-- Modelled from the spec: the reply outcome described in the design
document, reading result.result.value with a placeholder default. -/
def specOutcome (reply : Json) : Json :=
  specGet (specGet (specGet reply "result" (Json.obj [])) "result" (Json.obj [])) "value"
    (Json.str "Unknown result")

/-- A reply whose present levels along the result.result path are all
objects: the shape on which the chained .get calls cannot raise. -/
def wellShapedReply (j : Json) : Bool :=
  match j with
  | Json.obj fields =>
    match fields.lookup "result" with
    | none => true
    | some (Json.obj fields2) =>
      match fields2.lookup "result" with
      | none => true
      | some (Json.obj _) => true
      | some _ => false
    | some _ => false
  | _ => false

/-- Python str.replace(old, new): replace all non-overlapping occurrences
left to right. Fuel-based recursion; the fuel is the length of the text,
which suffices because each step consumes at least one character. -/
def pyReplaceFuel (old new : List Char) : Nat → List Char → List Char
  | _, [] => []
  | 0, l => l
  | fuel + 1, c :: rest =>
    if old ≠ [] ∧ old = List.take old.length (c :: rest) then
      new ++ pyReplaceFuel old new fuel (List.drop old.length (c :: rest))
    else
      c :: pyReplaceFuel old new fuel rest

/-- Python s.replace(old, new) on strings. -/
def pyReplace (s old new : String) : String :=
  String.mk (pyReplaceFuel old.data new.data s.data.length s.data)

/-- One entry of the SCRIPTS table (lines 33-54). -/
structure ScriptDescriptor where
  name : String
  file : String
  description : String

/-- The fixed SCRIPTS table of lines 33-54. -/
def SCRIPTS : List ScriptDescriptor :=
  [{ name := "lms-extractor", file := "lms-extractor-complete.js",
     description := "Universal LMS extractor" },
   { name := "storyline", file := "storyline-console-extractor.js",
     description := "Articulate Storyline extractor" },
   { name := "tla-helper", file := "tla-completion-helper.js",
     description := "TLA/xAPI helper" },
   { name := "qa-extractor", file := "unified-qa-extractor.js",
     description := "Multi-format Q&A extractor" }]

/-- A resolved snippet: the dict appended at lines 232-235. -/
structure Snippet where
  name : String
  content : String

/-- Lowercase hexadecimal rendering on four digits, as json.dumps uses in
its escape sequences. -/
def hex4 (n : Nat) : String :=
  String.mk [Nat.digitChar (n / 4096 % 16), Nat.digitChar (n / 256 % 16),
    Nat.digitChar (n / 16 % 16), Nat.digitChar (n % 16)]

/-- Escape of one character under json.dumps with its default
ensure_ascii=True: printable ASCII passes through, the short escapes
cover the usual control characters, everything else becomes a unicode
escape (a surrogate pair beyond the basic plane). -/
def jsonEscapeChar (c : Char) : String :=
  if c = '\\' then "\\\\"
  else if c = '\x22' then "\\\x22"
  else if c = '\n' then "\\n"
  else if c = '\t' then "\\t"
  else if c = '\r' then "\\r"
  else if c = '\x08' then "\\b"
  else if c = '\x0c' then "\\f"
  else if 0x20 ≤ c.toNat ∧ c.toNat ≤ 0x7e then String.singleton c
  else if c.toNat < 0x10000 then "\\u" ++ hex4 c.toNat
  else
    "\\u" ++ hex4 (0xd800 + (c.toNat - 0x10000) / 0x400) ++
      "\\u" ++ hex4 (0xdc00 + (c.toNat - 0x10000) % 0x400)

/-- json.dumps applied to a Python string value. -/
def pyJsonDumps (s : String) : String :=
  "\x22" ++ String.join (s.data.map jsonEscapeChar) ++ "\x22"

/-- The evaluation expression built by the f-string of lines 157-180,
with json.dumps interpolation of the snippet name and content. -/
def snippetScript (sn : Snippet) : String :=
  "\n            (async () => \x7b\n"
  ++ "                // Access DevTools snippets storage\n"
  ++ "                const db = await new Promise((resolve, reject) => \x7b\n"
  ++ "                    const request = indexedDB.open(\x27devtools-frontend\x27, 1);\n"
  ++ "                    request.onerror = reject;\n"
  ++ "                    request.onsuccess = () => resolve(request.result);\n"
  ++ "                \x7d);\n\n"
  ++ "                const tx = db.transaction([\x27snippets\x27], \x27readwrite\x27);\n"
  ++ "                const store = tx.objectStore(\x27snippets\x27);\n\n"
  ++ "                await new Promise((resolve, reject) => \x7b\n"
  ++ "                    const request = store.put(\x7b\n"
  ++ "                        name: " ++ pyJsonDumps sn.name ++ ",\n"
  ++ "                        content: " ++ pyJsonDumps sn.content ++ "\n"
  ++ "                    \x7d);\n"
  ++ "                    request.onerror = reject;\n"
  ++ "                    request.onsuccess = resolve;\n"
  ++ "                \x7d);\n\n"
  ++ "                return \x27Installed: \x27 + " ++ pyJsonDumps sn.name ++ ";\n"
  ++ "            \x7d)()\n            "

/-- Parameters of a Runtime.evaluate command (lines 185-188). -/
structure EvalParams where
  expression : String
  awaitPromise : Bool

/-- A command envelope: the dict passed to json.dumps in ws.send. -/
structure Cmd where
  id : Nat
  method : String
  params : Option EvalParams

/-- Lines 147-150: the Runtime.enable command with id 1. -/
def enableCmd : Cmd :=
  { id := 1, method := "Runtime.enable", params := none }

/-- Lines 182-189: the Runtime.evaluate command for the snippet at
0-based position i, with id i + 10. -/
def evalCmd (i : Nat) (sn : Snippet) : Cmd :=
  { id := i + 10, method := "Runtime.evaluate",
    params := some { expression := snippetScript sn, awaitPromise := true } }

/-- Environment driving one installer run: whether the connection opens,
whether the n-th send succeeds, and what the n-th receive yields. A
receive yields either the parsed reply value or an exception (covering a
failing ws.recv as well as a json.loads parse failure; the first receive
at line 151 discards the value, so modelling it as already parsed is
harmless). -/
structure ChanEnv where
  connectOk : Bool
  sendOk : Nat → Bool
  recvs : Nat → Except Unit Json

/-- Observable events of a run: channel activity and printed output.
The reported event records the value whose display string line 191
prints; loaded, warnMissing, loadingFrom and listedScript record the
data carried by the print calls of main; printLine records the fixed
text lines. -/
inductive Ev where
  | connect
  | send (c : Cmd)
  | recvEv
  | reported (v : Json)
  | loadingFrom (dir : List String)
  | loaded (name : String) (bytes : Nat)
  | warnMissing (path : List String)
  | listedScript (name description : String)
  | printLine (s : String)
  | close

def isClose : Ev → Bool
  | Ev.close => true
  | _ => false

def isMsg : Ev → Bool
  | Ev.send _ => true
  | Ev.recvEv => true
  | _ => false

def isReported : Ev → Bool
  | Ev.reported _ => true
  | _ => false

def isWarn : Ev → Bool
  | Ev.warnMissing _ => true
  | _ => false

/-- Any event witnessing that the control channel was driven. -/
def isChannelEv : Ev → Bool
  | Ev.connect => true
  | Ev.send _ => true
  | Ev.recvEv => true
  | Ev.reported _ => true
  | Ev.close => true
  | _ => false

/-- Identifiers of the commands sent, in order. -/
def sentIds (t : List Ev) : List Nat :=
  t.filterMap (fun e => match e with | Ev.send c => some c.id | _ => none)

/-- The per-snippet loop of lines 155-191. The counter i is the 0-based
position; send and receive number i + 1 belong to snippet i (number 0 is
the enable exchange). The Bool is true when an exception propagates. -/
def installLoop (env : ChanEnv) : List Snippet → Nat → List Ev × Bool
  | [], _ => ([], false)
  | sn :: rest, i =>
    if env.sendOk (i + 1) then
      match env.recvs (i + 1) with
      | Except.error _ => ([Ev.send (evalCmd i sn)], true)
      | Except.ok reply =>
        match extractOutcome reply with
        | Except.error _ => ([Ev.send (evalCmd i sn), Ev.recvEv], true)
        | Except.ok v =>
          let r := installLoop env rest (i + 1)
          (Ev.send (evalCmd i sn) :: Ev.recvEv :: Ev.reported v :: r.1, r.2)
    else ([], true)

/-- install_via_cdp, lines 141-194: connect, then inside try send the
enable command and read its reply, run the loop, and close in the
finally clause on every exit path of the try block. A failing
create_connection raises before the try, so no close happens then. -/
def install_via_cdp (env : ChanEnv) (snippets : List Snippet) : List Ev × Bool :=
  if env.connectOk then
    let body :=
      if env.sendOk 0 then
        match env.recvs 0 with
        | Except.error _ => ([Ev.send enableCmd], true)
        | Except.ok _ =>
          let r := installLoop env snippets 0
          (Ev.send enableCmd :: Ev.recvEv :: r.1, r.2)
      else ([], true)
    (Ev.connect :: body.1 ++ [Ev.close], body.2)
  else ([], true)

/-- Errors raised while resolving one script file: the explicit
FileNotFoundError of line 137 (carrying the primary path it names), or
any other read error such as a UnicodeDecodeError from read_text. -/
inductive PyErr where
  | fileNotFound (path : List String)
  | decodeError

/-- Filesystem oracle. A path maps to none when absent, to ok content
when readable, and to an error when present but unreadable (for example
not valid UTF-8). Paths are component lists; dirExists models the
directory existence test dist_dir.exists() of line 220. -/
structure FS where
  files : List String → Option (Except Unit String)
  dirExists : List String → Bool

/-- read_script, lines 128-139: try lib_dir / filename, else try
lib_dir.parent / "dist" / filename.replace(".js", ".min.js"), else raise
FileNotFoundError naming the primary path. Reading an existing but
undecodable file raises a non-FileNotFound error. -/
def read_script (files : List String → Option (Except Unit String))
    (lib_dir : List String) (filename : String) : Except PyErr String :=
  let script_path := lib_dir ++ [filename]
  match files script_path with
  | some (Except.ok content) => Except.ok content
  | some (Except.error _) => Except.error PyErr.decodeError
  | none =>
    let min_path := lib_dir.dropLast ++ ["dist", pyReplace filename ".js" ".min.js"]
    match files min_path with
    | some (Except.ok content) => Except.ok content
    | some (Except.error _) => Except.error PyErr.decodeError
    | none => Except.error (PyErr.fileNotFound script_path)

/-- Line 220: use_dist is true when the dist directory exists and at
least one descriptor has its .min.js variant there. Computed once for
the batch, before the loading loop. -/
def use_dist (fs : FS) (dist_dir : List String) (scripts : List ScriptDescriptor) : Bool :=
  fs.dirExists dist_dir &&
    scripts.any (fun s => (fs.files (dist_dir ++ [pyReplace s.file ".js" ".min.js"])).isSome)

/-- Lines 228-231: the per-descriptor read of the loading loop, with the
directory and filename chosen from the batch-level flag. -/
def resolveOne (fs : FS) (u : Bool) (source_dir lib_dir : List String)
    (s : ScriptDescriptor) : Except PyErr String :=
  let filename := if u then pyReplace s.file ".js" ".min.js" else s.file
  read_script fs.files (if u then source_dir else lib_dir) (if u then filename else s.file)

/-- Lines 226-238: the loading loop. A FileNotFoundError is caught and
printed as a warning; any other error propagates and aborts the batch. -/
def loadLoop (fs : FS) (u : Bool) (source_dir lib_dir : List String) :
    List ScriptDescriptor → List Ev × Except PyErr (List Snippet)
  | [] => ([], Except.ok [])
  | s :: rest =>
    match resolveOne fs u source_dir lib_dir s with
    | Except.ok content =>
      let r := loadLoop fs u source_dir lib_dir rest
      (Ev.loaded s.name content.length :: r.1,
       r.2.map (fun l => { name := s.name, content := content } :: l))
    | Except.error (PyErr.fileNotFound p) =>
      let r := loadLoop fs u source_dir lib_dir rest
      (Ev.warnMissing p :: r.1, r.2)
    | Except.error PyErr.decodeError => ([], Except.error PyErr.decodeError)

/-- The Asset Resolver of main, lines 219-238, parametrized by the
descriptor list (main instantiates it with SCRIPTS): compute the batch
flag once, announce the source directory, and run the loading loop. -/
def resolve (fs : FS) (script_dir : List String) (scripts : List ScriptDescriptor) :
    List Ev × Except PyErr (List Snippet) :=
  let lib_dir := script_dir ++ ["lib"]
  let dist_dir := script_dir ++ ["dist"]
  let u := use_dist fs dist_dir scripts
  let source_dir := if u then dist_dir else lib_dir
  let r := loadLoop fs u source_dir lib_dir scripts
  (Ev.loadingFrom source_dir :: r.1, r.2)

/-- The batch-level packaged flag as main computes it from script_dir. -/
def batchFlag (fs : FS) (sd : List String) (scripts : List ScriptDescriptor) : Bool :=
  use_dist fs (sd ++ ["dist"]) scripts

/-- The source directory main loads from, given the batch flag. -/
def batchSource (fs : FS) (sd : List String) (scripts : List ScriptDescriptor) : List String :=
  if batchFlag fs sd scripts then sd ++ ["dist"] else sd ++ ["lib"]

/-- How a run of main ends. -/
inductive MainRes where
  | exitedList
  | exitedNoScripts
  | finished (snippets : List Snippet)
  | raised (e : PyErr)

/-- The function main of lines 196-253 (named mainRun here because Lean
reserves the name main for executables). After the empty-batch check it
prints the note and the manual instructions of lines 244-250 and
returns: the function install_via_cdp is never invoked anywhere in main,
so the run ends with the loaded snippets unused. -/
def mainRun (fs : FS) (script_dir : List String) (argsList : Bool)
    (browser : String) (port : Nat) : List Ev × MainRes :=
  if argsList then
    (SCRIPTS.map (fun s => Ev.listedScript s.name s.description), MainRes.exitedList)
  else
    match resolve fs script_dir SCRIPTS with
    | (evs, Except.error e) => (evs, MainRes.raised e)
    | (evs, Except.ok snippets) =>
      if snippets.isEmpty then
        (evs ++ [Ev.printLine "No scripts to install!"], MainRes.exitedNoScripts)
      else
        (evs ++
          [Ev.printLine "\nNote: This method requires browser to be running with remote debugging.",
           Ev.printLine "Manual alternative: Open install.html and copy scripts to DevTools Snippets.\n",
           Ev.printLine "To enable remote debugging, start browser with:",
           Ev.printLine ("  " ++ browser ++ " --remote-debugging-port=" ++ Nat.repr port ++ "\n"),
           Ev.printLine "Then run this script again, or use install.html for manual installation."],
         MainRes.finished snippets)

/-- Lock-step shape of the channel messages: sends and receives strictly
alternate, starting with a send; a trailing lone send (whose receive
failed) is allowed, pipelined sends are not. -/
def lockstepOk : List Ev → Bool
  | [] => true
  | [Ev.send _] => true
  | Ev.send _ :: Ev.recvEv :: rest => lockstepOk rest
  | _ => false

/-- The identifier sequence i + 10, i + 11, ... of length n. -/
def idsFrom (i : Nat) : Nat → List Nat
  | 0 => []
  | n + 1 => (i + 10) :: idsFrom (i + 1) n

/-- The first list is an initial segment of the second. -/
def idsLe (l1 l2 : List Nat) : Prop :=
  ∃ t, l1 ++ t = l2

/-- A receive outcome that is a parsed, well shaped reply. -/
def wellOkB : Except Unit Json → Bool
  | Except.ok j => wellShapedReply j
  | Except.error _ => false

/-- A filesystem answer free of read errors: the path is either absent
or readable. -/
def noDecodeB : Option (Except Unit String) → Bool
  | some (Except.error _) => false
  | _ => true

/-- Filesystem with the four lib scripts present and no dist directory. -/
def fsC1 : FS :=
  { files := fun p =>
      if p = ["r", "lib", "lms-extractor-complete.js"] then some (Except.ok "A")
      else if p = ["r", "lib", "storyline-console-extractor.js"] then some (Except.ok "B")
      else if p = ["r", "lib", "tla-completion-helper.js"] then some (Except.ok "C")
      else if p = ["r", "lib", "unified-qa-extractor.js"] then some (Except.ok "D")
      else none,
    dirExists := fun _ => false }

/-- Filesystem for the packaged-mode fallback scenario: dist exists and
holds the lms minified file, while the storyline asset sits in lib, in
both original and minified naming. -/
def fsC2 : FS :=
  { files := fun p =>
      if p = ["r", "dist", "lms-extractor-complete.min.js"] then some (Except.ok "A")
      else if p = ["r", "lib", "storyline-console-extractor.min.js"] then some (Except.ok "S")
      else if p = ["r", "lib", "storyline-console-extractor.js"] then some (Except.ok "T")
      else none,
    dirExists := fun d => d == ["r", "dist"] }

/-- A filesystem with no files at all. -/
def filesNone : List String → Option (Except Unit String) := fun _ => none

/-- Channel environment whose second receive yields a reply whose result
field is a number, the shape on which the chained .get calls raise. -/
def envBad : ChanEnv :=
  { connectOk := true, sendOk := fun _ => true,
    recvs := fun n =>
      if n = 0 then Except.ok Json.null
      else Except.ok (Json.obj [("result", Json.num 5)]) }

/-- Channel environment in which every operation succeeds and every
reply is an empty object. -/
def envAll : ChanEnv :=
  { connectOk := true, sendOk := fun _ => true,
    recvs := fun _ => Except.ok (Json.obj []) }

/-- Channel environment whose replies all carry only an error field. -/
def envErrField : ChanEnv :=
  { connectOk := true, sendOk := fun _ => true,
    recvs := fun _ => Except.ok (Json.obj [("error", Json.obj [])]) }

/-- Scenario A filesystem: lib/x.js holds console.log(1), no dist. -/
def fsC9 : FS :=
  { files := fun p => if p = ["r", "lib", "x.js"] then some (Except.ok "console.log(1)") else none,
    dirExists := fun _ => false }

/-- Scenario A descriptor set. -/
def descsC9 : List ScriptDescriptor := [{ name := "x", file := "x.js", description := "demo" }]

/-- Scenario B style filesystem: only the second descriptor resolvable. -/
def fsC7 : FS :=
  { files := fun p => if p = ["r", "lib", "b.js"] then some (Except.ok "B") else none,
    dirExists := fun _ => false }

/-- Scenario B style descriptors: a.js absent, b.js present. -/
def descsC7 : List ScriptDescriptor :=
  [{ name := "a", file := "a.js", description := "da" },
   { name := "b", file := "b.js", description := "db" }]

/-- Filesystem whose first SCRIPTS file loads while the second exists
but is unreadable, so the batch aborts mid-loop. -/
def fsC10 : FS :=
  { files := fun p =>
      if p = ["r", "lib", "lms-extractor-complete.js"] then some (Except.ok "A")
      else if p = ["r", "lib", "storyline-console-extractor.js"] then some (Except.error ())
      else none,
    dirExists := fun _ => false }

theorem installLoop_no_close (env : ChanEnv) :
    ∀ (snips : List Snippet) (i : Nat), ((installLoop env snips i).1.filter isClose) = [] := by
  intro snips
  induction snips with
  | nil => intro i; rfl
  | cons sn rest ih =>
    intro i
    simp only [installLoop]
    split
    · split
      · rfl
      · split
        · rfl
        · simp only [List.filter, isClose]
          exact ih (i + 1)
    · rfl

theorem installLoop_lockstep (env : ChanEnv) :
    ∀ (snips : List Snippet) (i : Nat),
      lockstepOk ((installLoop env snips i).1.filter isMsg) = true := by
  intro snips
  induction snips with
  | nil => intro i; rfl
  | cons sn rest ih =>
    intro i
    simp only [installLoop]
    split
    · split
      · rfl
      · split
        · rfl
        · simp only [List.filter, isMsg, lockstepOk]
          exact ih (i + 1)
    · rfl

theorem install_close_once (env : ChanEnv) (snips : List Snippet) (h : env.connectOk = true) :
    ((install_via_cdp env snips).1.filter isClose).length = 1 := by
  unfold install_via_cdp
  rw [h]
  simp only [if_true]
  split
  · split
    · rfl
    · simp [List.append_eq, List.filter_append, List.filter, isClose, installLoop_no_close]
  · rfl

theorem install_lockstep_all (env : ChanEnv) (snips : List Snippet) :
    lockstepOk ((install_via_cdp env snips).1.filter isMsg) = true := by
  unfold install_via_cdp
  split
  · split
    · split
      · rfl
      · simp only [List.filter, List.filter_append, isMsg, lockstepOk]
        simpa [List.filter, isMsg] using installLoop_lockstep env snips 0
    · rfl
  · rfl

theorem idsLe_nodup (l1 l2 : List Nat) (h : idsLe l1 l2) (h2 : l2.Nodup) : l1.Nodup := by
  obtain ⟨t, ht⟩ := h
  rw [← ht] at h2
  exact h2.of_append_left

theorem installLoop_ids (env : ChanEnv) :
    ∀ (snips : List Snippet) (i : Nat),
      idsLe (sentIds (installLoop env snips i).1) (idsFrom i snips.length) := by
  intro snips
  induction snips with
  | nil => intro i; exact ⟨[], rfl⟩
  | cons sn rest ih =>
    intro i
    simp only [installLoop, List.length_cons, idsFrom]
    split
    · split
      · exact ⟨idsFrom (i + 1) rest.length, by simp [sentIds, evalCmd]⟩
      · split
        · exact ⟨idsFrom (i + 1) rest.length, by simp [sentIds, evalCmd]⟩
        · obtain ⟨t, ht⟩ := ih (i + 1)
          refine ⟨t, ?_⟩
          calc sentIds (Ev.send (evalCmd i sn) :: Ev.recvEv :: Ev.reported _ :: (installLoop env rest (i + 1)).1) ++ t
              = (i + 10) :: (sentIds (installLoop env rest (i + 1)).1 ++ t) := by
                simp [sentIds, evalCmd]
            _ = (i + 10) :: idsFrom (i + 1) rest.length := by rw [ht]
    · exact ⟨(i + 10) :: idsFrom (i + 1) rest.length, by simp [sentIds]⟩

theorem idsFrom_eq : ∀ (n i : Nat), idsFrom i n = (List.range n).map (fun k => 10 + (i + k)) := by
  intro n
  induction n with
  | zero => intro i; rfl
  | succ m ih =>
    intro i
    simp only [idsFrom, List.range_succ_eq_map, List.map_cons, List.map_map]
    refine List.cons_eq_cons.mpr ⟨by omega, ?_⟩
    rw [ih (i + 1)]
    refine List.map_congr_left ?_
    intro x _
    simp [Function.comp]
    omega

theorem seqIdsNodup (n : Nat) : (1 :: (List.range n).map (fun k => 10 + k)).Nodup := by
  refine List.nodup_cons.mpr ⟨?_, ?_⟩
  · intro hmem
    obtain ⟨k, _, hk⟩ := List.mem_map.mp hmem
    omega
  · exact List.Nodup.map (fun a b hab => by omega) (List.nodup_range n)

theorem install_ids_le (env : ChanEnv) (snips : List Snippet) :
    idsLe (sentIds (install_via_cdp env snips).1)
      (1 :: (List.range snips.length).map (fun k => 10 + k)) := by
  have hlist : idsFrom 0 snips.length = (List.range snips.length).map (fun k => 10 + k) := by
    rw [idsFrom_eq]
    refine List.map_congr_left ?_
    intro x _
    omega
  unfold install_via_cdp
  split
  · split
    · split
      · exact ⟨(List.range snips.length).map (fun k => 10 + k), by simp [sentIds, enableCmd]⟩
      · obtain ⟨t, ht⟩ := installLoop_ids env snips 0
        refine ⟨t, ?_⟩
        calc sentIds (Ev.connect :: (Ev.send enableCmd :: Ev.recvEv :: (installLoop env snips 0).1) ++ [Ev.close]) ++ t
            = 1 :: (sentIds (installLoop env snips 0).1 ++ t) := by
              simp [sentIds, enableCmd]
          _ = 1 :: idsFrom 0 snips.length := by rw [ht]
          _ = 1 :: (List.range snips.length).map (fun k => 10 + k) := by rw [hlist]
    · exact ⟨1 :: (List.range snips.length).map (fun k => 10 + k), by simp [sentIds]⟩
  · exact ⟨1 :: (List.range snips.length).map (fun k => 10 + k), by simp [sentIds]⟩

theorem extract_wellShaped (j : Json) (h : wellShapedReply j = true) :
    extractOutcome j = Except.ok (specOutcome j) := by
  cases j with
  | obj fields =>
    cases h1 : fields.lookup "result" with
    | none => simp [extractOutcome, pyGet, specOutcome, specGet, h1]
    | some v =>
      cases v with
      | obj fields2 =>
        cases h2 : fields2.lookup "result" with
        | none => simp [extractOutcome, pyGet, specOutcome, specGet, h1, h2]
        | some w =>
          cases w with
          | obj fields3 => simp [extractOutcome, pyGet, specOutcome, specGet, h1, h2]
          | null => simp [wellShapedReply, h1, h2] at h
          | bool b => simp [wellShapedReply, h1, h2] at h
          | num n => simp [wellShapedReply, h1, h2] at h
          | str s => simp [wellShapedReply, h1, h2] at h
          | arr es => simp [wellShapedReply, h1, h2] at h
      | null => simp [wellShapedReply, h1] at h
      | bool b => simp [wellShapedReply, h1] at h
      | num n => simp [wellShapedReply, h1] at h
      | str s => simp [wellShapedReply, h1] at h
      | arr es => simp [wellShapedReply, h1] at h
  | null => simp [wellShapedReply] at h
  | bool b => simp [wellShapedReply] at h
  | num n => simp [wellShapedReply] at h
  | str s => simp [wellShapedReply] at h
  | arr es => simp [wellShapedReply] at h

theorem installLoop_noraise (env : ChanEnv)
    (hsend : ∀ n, env.sendOk n = true) (hrecv : ∀ n, wellOkB (env.recvs n) = true) :
    ∀ (snips : List Snippet) (i : Nat), (installLoop env snips i).2 = false := by
  intro snips
  induction snips with
  | nil => intro i; rfl
  | cons sn rest ih =>
    intro i
    simp only [installLoop, hsend (i + 1), if_true]
    have hr := hrecv (i + 1)
    cases hrec : env.recvs (i + 1) with
    | error e => rw [hrec] at hr; simp [wellOkB] at hr
    | ok j =>
      rw [hrec] at hr
      simp only [wellOkB] at hr
      dsimp only
      rw [extract_wellShaped j hr]
      exact ih (i + 1)

theorem install_noraise (env : ChanEnv) (snips : List Snippet)
    (hconn : env.connectOk = true) (hsend : ∀ n, env.sendOk n = true)
    (hrecv : ∀ n, wellOkB (env.recvs n) = true) :
    (install_via_cdp env snips).2 = false := by
  unfold install_via_cdp
  rw [hconn]
  simp only [if_true, hsend 0]
  have hr := hrecv 0
  cases hrec : env.recvs 0 with
  | error e => rw [hrec] at hr; simp [wellOkB] at hr
  | ok j =>
    exact installLoop_noraise env hsend hrecv snips 0

theorem read_script_decode (files : List String → Option (Except Unit String))
    (d : List String) (f : String)
    (h : read_script files d f = Except.error PyErr.decodeError) :
    ∃ p, noDecodeB (files p) = false := by
  simp only [read_script] at h
  cases h1 : files (d ++ [f]) with
  | some r =>
    cases r with
    | ok c => rw [h1] at h; simp at h
    | error e => exact ⟨d ++ [f], by simp [noDecodeB, h1]⟩
  | none =>
    rw [h1] at h
    cases h2 : files (d.dropLast ++ ["dist", pyReplace f ".js" ".min.js"]) with
    | some r =>
      cases r with
      | ok c => rw [h2] at h; simp at h
      | error e => exact ⟨d.dropLast ++ ["dist", pyReplace f ".js" ".min.js"], by simp [noDecodeB, h2]⟩
    | none => rw [h2] at h; simp at h

theorem resolveOne_decode (fs : FS) (u : Bool) (src lib : List String) (s : ScriptDescriptor)
    (h : resolveOne fs u src lib s = Except.error PyErr.decodeError) :
    ∃ p, noDecodeB (fs.files p) = false := by
  simp only [resolveOne] at h
  exact read_script_decode _ _ _ h

theorem loadLoop_clean (fs : FS) (u : Bool) (src lib : List String)
    (hclean : ∀ p, noDecodeB (fs.files p) = true) :
    ∀ scripts : List ScriptDescriptor,
      (loadLoop fs u src lib scripts).2 =
        Except.ok (scripts.filterMap
          (fun s => (resolveOne fs u src lib s).toOption.map (fun c => Snippet.mk s.name c)))
      ∧ ((loadLoop fs u src lib scripts).1.filter isWarn).length =
          (scripts.filter (fun s => !(resolveOne fs u src lib s).toOption.isSome)).length := by
  intro scripts
  induction scripts with
  | nil => exact ⟨rfl, rfl⟩
  | cons s rest ih =>
    cases hr : resolveOne fs u src lib s with
    | ok c =>
      constructor
      · simp only [loadLoop, hr]
        rw [ih.1]
        simp only [List.filterMap_cons, hr]
        rfl
      · simp only [loadLoop, hr]
        simp only [List.filter, isWarn, hr, ih.2]
        rfl
    | error e =>
      cases e with
      | fileNotFound p =>
        constructor
        · simp only [loadLoop, hr]
          rw [ih.1]
          simp only [List.filterMap_cons, hr]
          rfl
        · simp only [loadLoop, hr]
          simp only [List.filter, isWarn, hr]
          simp [ih.2, Except.toOption, Option.isNone]
      | decodeError =>
        obtain ⟨p, hp⟩ := resolveOne_decode fs u src lib s hr
        rw [hclean p] at hp
        simp at hp

theorem loadLoop_no_channel (fs : FS) (u : Bool) (src lib : List String) :
    ∀ scripts : List ScriptDescriptor,
      ((loadLoop fs u src lib scripts).1.filter isChannelEv) = [] := by
  intro scripts
  induction scripts with
  | nil => rfl
  | cons s rest ih =>
    cases hr : resolveOne fs u src lib s with
    | ok c => simp only [loadLoop, hr]; simp [List.filter, isChannelEv, ih]
    | error e =>
      cases e with
      | fileNotFound p => simp only [loadLoop, hr]; simp [List.filter, isChannelEv, ih]
      | decodeError => simp only [loadLoop, hr]; rfl

theorem mainRun_no_channel (fs : FS) (sd : List String) (al : Bool) (b : String) (p : Nat) :
    ((mainRun fs sd al b p).1.filter isChannelEv) = [] := by
  unfold mainRun
  split
  · induction SCRIPTS with
    | nil => rfl
    | cons s rest ih => simp only [List.map_cons, List.filter, isChannelEv] at ih ⊢; exact ih
  · have hres : (resolve fs sd SCRIPTS).1.filter isChannelEv = [] := by
      simp only [resolve]
      simp only [List.filter, isChannelEv]
      exact loadLoop_no_channel _ _ _ _ SCRIPTS
    rcases hr : resolve fs sd SCRIPTS with ⟨evs, r⟩
    rw [hr] at hres
    cases r with
    | error e => simpa using hres
    | ok snippets =>
      dsimp only
      split
      · simp [List.filter_append, hres, List.filter, isChannelEv]
      · simp [List.filter_append, hres, List.filter, isChannelEv]

theorem loadLoop_decode_after (fs : FS) (u : Bool) (src lib : List String) :
    ∀ (pre : List ScriptDescriptor) (s : ScriptDescriptor) (rest : List ScriptDescriptor),
      (∀ t ∈ pre, resolveOne fs u src lib t ≠ Except.error PyErr.decodeError) →
      resolveOne fs u src lib s = Except.error PyErr.decodeError →
      loadLoop fs u src lib (pre ++ s :: rest) =
        ((loadLoop fs u src lib pre).1, Except.error PyErr.decodeError) := by
  intro pre
  induction pre with
  | nil =>
    intro s rest hpre h
    simp only [List.nil_append, loadLoop, h]
  | cons t pre ih =>
    intro s rest hpre h
    have ht := hpre t (List.mem_cons_self t pre)
    cases hr : resolveOne fs u src lib t with
    | ok c =>
      have hrec := ih s rest (fun x hx => hpre x (List.mem_cons_of_mem t hx)) h
      simp only [List.cons_append, loadLoop, hr, List.append_eq, hrec]
      rfl
    | error e =>
      cases e with
      | fileNotFound p =>
        have hrec := ih s rest (fun x hx => hpre x (List.mem_cons_of_mem t hx)) h
        simp only [List.cons_append, loadLoop, hr, List.append_eq, hrec]
      | decodeError => exact absurd hr ht

/-- Claim C1: in every run of main the trace holds no channel event at
all, and on a filesystem where all four scripts load, main still just
ends with the snippets in hand: the installation routine is never
invoked, contradicting the stated control flow. -/
theorem spec_c1_installer_never_invoked :
    (∀ (fs : FS) (sd : List String) (argsList : Bool) (browser : String) (port : Nat),
        ((mainRun fs sd argsList browser port).1.filter isChannelEv) = [])
    ∧ (mainRun fsC1 ["r"] false "chrome" 9222).2 =
        MainRes.finished
          [{ name := "lms-extractor", content := "A" }, { name := "storyline", content := "B" },
           { name := "tla-helper", content := "C" }, { name := "qa-extractor", content := "D" }] :=
  ⟨fun fs sd al b p => mainRun_no_channel fs sd al b p, rfl⟩

/-- Claim C2, counterexample: packaged batch mode is on, the storyline
asset sits in the alternate (primary) location in both original and
packaged-suffix naming, yet the resolver misses it: the fallback path it
probes is the packaged directory again, with a doubled suffix. -/
theorem spec_c2_counterexample :
    batchFlag fsC2 ["r"] SCRIPTS = true
    ∧ fsC2.files ["r", "lib", "storyline-console-extractor.min.js"] = some (Except.ok "S")
    ∧ fsC2.files ["r", "lib", "storyline-console-extractor.js"] = some (Except.ok "T")
    ∧ (resolve fsC2 ["r"] SCRIPTS).2 = Except.ok [{ name := "lms-extractor", content := "A" }]
    ∧ (resolve fsC2 ["r"] SCRIPTS).1 =
        [Ev.loadingFrom ["r", "dist"], Ev.loaded "lms-extractor" 1,
         Ev.warnMissing ["r", "dist", "storyline-console-extractor.min.js"],
         Ev.warnMissing ["r", "dist", "tla-completion-helper.min.js"],
         Ev.warnMissing ["r", "dist", "unified-qa-extractor.min.js"]] :=
  ⟨rfl, rfl, rfl, rfl, rfl⟩

/-- Claim C2 (amended): when the computed candidate is absent,
read_script consults exactly one fallback path, built as the parent of
the directory it was given, then dist, then the filename with every .js
replaced by .min.js. From the primary directory this is the packaged
directory in packaged-suffix form; from the packaged directory the
filename doubles its suffix and the directory stays the packaged one, so
the alternate location is never consulted in packaged mode. -/
theorem spec_c2_fallback_shape (files : List String → Option (Except Unit String))
    (dir : List String) (file : String) (h : files (dir ++ [file]) = none) :
    read_script files dir file =
      (match files (dir.dropLast ++ ["dist", pyReplace file ".js" ".min.js"]) with
       | some (Except.ok c) => Except.ok c
       | some (Except.error _) => Except.error PyErr.decodeError
       | none => Except.error (PyErr.fileNotFound (dir ++ [file])))
    ∧ pyReplace "x.js" ".js" ".min.js" = "x.min.js"
    ∧ pyReplace "x.min.js" ".js" ".min.js" = "x.min.min.js"
    ∧ (∀ sd : List String, (sd ++ ["lib"]).dropLast ++ ["dist"] = sd ++ ["dist"]
         ∧ (sd ++ ["dist"]).dropLast ++ ["dist"] = sd ++ ["dist"]) := by
  refine ⟨?_, by decide, by decide, ?_⟩
  · simp only [read_script, h]
  · intro sd
    constructor <;> simp

/-- Witness for the amended C2: on an empty filesystem a packaged-mode
read fails with the FileNotFoundError naming the primary candidate. -/
theorem spec_c2_witness :
    read_script filesNone ["r", "dist"] "a.min.js" =
      Except.error (PyErr.fileNotFound ["r", "dist", "a.min.js"]) := by
  have h := spec_c2_fallback_shape filesNone ["r", "dist"] "a.min.js" rfl
  exact h.1

/-- Claim C3, counterexample: a reply whose result field is a number has
no nested value, yet the run aborts with an exception instead of
reporting the placeholder, and nothing is reported for that snippet. -/
theorem spec_c3_counterexample :
    extractOutcome (Json.obj [("result", Json.num 5)]) = Except.error ()
    ∧ (install_via_cdp envBad [{ name := "a", content := "x" }]).2 = true
    ∧ ((install_via_cdp envBad [{ name := "a", content := "x" }]).1.filter isReported) = [] :=
  ⟨rfl, rfl, rfl⟩

/-- Claim C3 (amended): on every reply whose present levels along the
result.result path are objects, the extraction yields exactly the
doubly nested value with the placeholder for any missing level, and a
run fed only such replies (error-only replies included) never raises. -/
theorem spec_c3_nested_extraction (j : Json) (h : wellShapedReply j = true) :
    extractOutcome j = Except.ok (specOutcome j)
    ∧ ∀ (env : ChanEnv) (snips : List Snippet),
        env.connectOk = true → (∀ n, env.sendOk n = true) →
        (∀ n, wellOkB (env.recvs n) = true) → (install_via_cdp env snips).2 = false :=
  ⟨extract_wellShaped j h, fun env snips hc hs hr => install_noraise env snips hc hs hr⟩

/-- Witness for the amended C3: an error-only reply is reported as the
placeholder and a run fed such replies completes without raising. -/
theorem spec_c3_witness :
    extractOutcome (Json.obj [("error", Json.obj [])]) = Except.ok (Json.str "Unknown result")
    ∧ (install_via_cdp envErrField [{ name := "a", content := "x" }]).2 = false := by
  have h := spec_c3_nested_extraction (Json.obj [("error", Json.obj [])]) rfl
  exact ⟨h.1, h.2 envErrField [{ name := "a", content := "x" }] rfl (fun n => rfl) (fun n => rfl)⟩

/-- Claim C4: whenever the connection opens, the trace of a run holds
exactly one close event, on every exit path including raising ones. -/
theorem spec_c4_close_on_all_paths (env : ChanEnv) (snippets : List Snippet)
    (h : env.connectOk = true) :
    ((install_via_cdp env snippets).1.filter isClose).length = 1 :=
  install_close_once env snippets h

/-- Witness for C4 at a run that raises mid-loop. -/
theorem spec_c4_witness :
    ((install_via_cdp envBad [{ name := "a", content := "x" }]).1.filter isClose).length = 1 :=
  spec_c4_close_on_all_paths envBad [{ name := "a", content := "x" }] rfl

/-- Claim C5: the enable command carries identifier 1, the k-th
evaluation command carries identifier 10 + k whatever the snippet, the
identifiers actually sent form an initial segment of 1, 10, 11, ..., and
they are all distinct. -/
theorem spec_c5_identifier_assignment (env : ChanEnv) (snippets : List Snippet) :
    enableCmd.id = 1
    ∧ (∀ (k : Nat) (sn : Snippet), (evalCmd k sn).id = 10 + k)
    ∧ idsLe (sentIds (install_via_cdp env snippets).1)
        (1 :: (List.range snippets.length).map (fun k => 10 + k))
    ∧ (sentIds (install_via_cdp env snippets).1).Nodup
    ∧ (1 :: (List.range snippets.length).map (fun k => 10 + k)).Nodup := by
  refine ⟨rfl, ?_, install_ids_le env snippets, ?_, seqIdsNodup snippets.length⟩
  · intro k sn
    simp [evalCmd, Nat.add_comm]
  · exact idsLe_nodup _ _ (install_ids_le env snippets) (seqIdsNodup snippets.length)

/-- Claim C6: the packaged-mode flag is exactly directory existence
conjoined with existence of at least one packaged-suffix file, and the
resolver threads that single batch-level flag through the whole loop. -/
theorem spec_c6_batch_mode (fs : FS) (d sd : List String) (scripts : List ScriptDescriptor) :
    (use_dist fs d scripts = true ↔
      fs.dirExists d = true ∧
        ∃ s ∈ scripts, (fs.files (d ++ [pyReplace s.file ".js" ".min.js"])).isSome = true)
    ∧ resolve fs sd scripts =
        (Ev.loadingFrom (batchSource fs sd scripts) ::
            (loadLoop fs (batchFlag fs sd scripts) (batchSource fs sd scripts) (sd ++ ["lib"]) scripts).1,
          (loadLoop fs (batchFlag fs sd scripts) (batchSource fs sd scripts) (sd ++ ["lib"]) scripts).2) := by
  constructor
  · simp [use_dist, List.any_eq_true, Bool.and_eq_true]
  · rfl

/-- Claim C7: on a filesystem without read errors, resolution returns
exactly the resolvable subset in input order, it is nonempty when some
descriptor resolves, and each unresolvable descriptor yields one
recoverable warning instead of aborting. -/
theorem spec_c7_resolvable_subset (fs : FS) (sd : List String) (scripts : List ScriptDescriptor)
    (hclean : ∀ p, noDecodeB (fs.files p) = true)
    (hsome : ∃ s ∈ scripts,
        (resolveOne fs (batchFlag fs sd scripts) (batchSource fs sd scripts) (sd ++ ["lib"]) s).toOption.isSome
          = true) :
    (resolve fs sd scripts).2 =
      Except.ok (scripts.filterMap
        (fun s =>
          (resolveOne fs (batchFlag fs sd scripts) (batchSource fs sd scripts) (sd ++ ["lib"]) s).toOption.map
            (fun c => Snippet.mk s.name c)))
    ∧ scripts.filterMap
        (fun s =>
          (resolveOne fs (batchFlag fs sd scripts) (batchSource fs sd scripts) (sd ++ ["lib"]) s).toOption.map
            (fun c => Snippet.mk s.name c)) ≠ []
    ∧ ((resolve fs sd scripts).1.filter isWarn).length =
        (scripts.filter
          (fun s =>
            !(resolveOne fs (batchFlag fs sd scripts) (batchSource fs sd scripts) (sd ++ ["lib"]) s).toOption.isSome)).length := by
  have hc := loadLoop_clean fs (batchFlag fs sd scripts) (batchSource fs sd scripts) (sd ++ ["lib"]) hclean scripts
  refine ⟨hc.1, ?_, ?_⟩
  · obtain ⟨s, hs, hok⟩ := hsome
    obtain ⟨c, hcv⟩ := Option.isSome_iff_exists.mp hok
    intro hnil
    have hmem : Snippet.mk s.name c ∈ scripts.filterMap
        (fun s =>
          (resolveOne fs (batchFlag fs sd scripts) (batchSource fs sd scripts) (sd ++ ["lib"]) s).toOption.map
            (fun c => Snippet.mk s.name c)) :=
      List.mem_filterMap.mpr ⟨s, hs, by rw [hcv]; rfl⟩
    rw [hnil] at hmem
    exact absurd hmem (List.not_mem_nil _)
  · simpa [resolve, List.filter, isWarn] using hc.2

/-- Witness for C7 in a two-descriptor batch with only the second file
present. -/
theorem spec_c7_witness :
    (resolve fsC7 ["r"] descsC7).2 =
      Except.ok (descsC7.filterMap
        (fun s =>
          (resolveOne fsC7 (batchFlag fsC7 ["r"] descsC7) (batchSource fsC7 ["r"] descsC7) (["r"] ++ ["lib"]) s).toOption.map
            (fun c => Snippet.mk s.name c))) := by
  have h := spec_c7_resolvable_subset fsC7 ["r"] descsC7
      (fun p => by
        show noDecodeB (if p = ["r", "lib", "b.js"] then some (Except.ok "B") else none) = true
        split <;> rfl)
      ⟨{ name := "b", file := "b.js", description := "db" }, by simp [descsC7], rfl⟩
  exact h.1

/-- Claim C8: the channel messages of every run form a strict
request-response alternation, never two sends without a receive in
between. -/
theorem spec_c8_lockstep (env : ChanEnv) (snippets : List Snippet) :
    lockstepOk ((install_via_cdp env snippets).1.filter isMsg) = true :=
  install_lockstep_all env snippets

/-- Claim C9, counterexample: Scenario A resolves to the expected name
and content but the reported length is 14, not the 15 the scenario
states. -/
theorem spec_c9_counterexample :
    resolve fsC9 ["r"] descsC9 =
      ([Ev.loadingFrom ["r", "lib"], Ev.loaded "x" ("console.log(1)".length)],
        Except.ok [{ name := "x", content := "console.log(1)" }])
    ∧ "console.log(1)".length = 14
    ∧ ¬ ("console.log(1)".length = 15) :=
  ⟨rfl, rfl, by decide⟩

/-- Claim C9 (amended): Scenario A yields the one snippet with content
console.log(1) and reported length 14. -/
theorem spec_c9_scenario_a :
    resolve fsC9 ["r"] descsC9 =
      ([Ev.loadingFrom ["r", "lib"], Ev.loaded "x" 14],
        Except.ok [{ name := "x", content := "console.log(1)" }]) := rfl

/-- Claim C10: a read error other than file-not-found at any position
of the batch aborts it at once: the events are exactly those of the
descriptors already processed, nothing is emitted for the failing or
the remaining descriptors, and main raises instead of reaching the
empty-batch exit. -/
theorem spec_c10_decode_error_aborts (fs : FS) (sd : List String)
    (pre : List ScriptDescriptor) (s : ScriptDescriptor) (rest : List ScriptDescriptor)
    (browser : String) (port : Nat)
    (hpre : ∀ t ∈ pre,
        resolveOne fs (batchFlag fs sd (pre ++ s :: rest)) (batchSource fs sd (pre ++ s :: rest))
            (sd ++ ["lib"]) t
          ≠ Except.error PyErr.decodeError)
    (h : resolveOne fs (batchFlag fs sd (pre ++ s :: rest)) (batchSource fs sd (pre ++ s :: rest))
            (sd ++ ["lib"]) s
          = Except.error PyErr.decodeError) :
    resolve fs sd (pre ++ s :: rest) =
      (Ev.loadingFrom (batchSource fs sd (pre ++ s :: rest)) ::
         (loadLoop fs (batchFlag fs sd (pre ++ s :: rest)) (batchSource fs sd (pre ++ s :: rest))
           (sd ++ ["lib"]) pre).1,
       Except.error PyErr.decodeError)
    ∧ (pre ++ s :: rest = SCRIPTS →
        mainRun fs sd false browser port =
          (Ev.loadingFrom (batchSource fs sd SCRIPTS) ::
             (loadLoop fs (batchFlag fs sd SCRIPTS) (batchSource fs sd SCRIPTS)
               (sd ++ ["lib"]) pre).1,
           MainRes.raised PyErr.decodeError)) := by
  simp only [batchFlag, batchSource] at hpre h
  have hL := loadLoop_decode_after fs (use_dist fs (sd ++ ["dist"]) (pre ++ s :: rest))
      (if use_dist fs (sd ++ ["dist"]) (pre ++ s :: rest) then sd ++ ["dist"] else sd ++ ["lib"])
      (sd ++ ["lib"]) pre s rest hpre h
  have h1 : resolve fs sd (pre ++ s :: rest) =
      (Ev.loadingFrom (batchSource fs sd (pre ++ s :: rest)) ::
         (loadLoop fs (batchFlag fs sd (pre ++ s :: rest)) (batchSource fs sd (pre ++ s :: rest))
           (sd ++ ["lib"]) pre).1,
       Except.error PyErr.decodeError) := by
    simp only [batchFlag, batchSource]
    simp only [resolve, hL]
  refine ⟨h1, ?_⟩
  intro he
  unfold mainRun
  simp only [Bool.false_eq_true, if_false]
  rw [← he, h1]

/-- Witness for C10: the first SCRIPTS file loads, the second exists but
is unreadable, and main raises mid-loop with only the first loaded
event on the trace. -/
theorem spec_c10_witness :
    mainRun fsC10 ["r"] false "chrome" 9222 =
      ([Ev.loadingFrom ["r", "lib"], Ev.loaded "lms-extractor" 1],
       MainRes.raised PyErr.decodeError) := by
  have h := spec_c10_decode_error_aborts fsC10 ["r"]
      [{ name := "lms-extractor", file := "lms-extractor-complete.js",
         description := "Universal LMS extractor" }]
      { name := "storyline", file := "storyline-console-extractor.js",
        description := "Articulate Storyline extractor" }
      [{ name := "tla-helper", file := "tla-completion-helper.js",
         description := "TLA/xAPI helper" },
       { name := "qa-extractor", file := "unified-qa-extractor.js",
         description := "Multi-format Q&A extractor" }] "chrome" 9222
      (by
        intro t ht hc
        have h1 := List.mem_singleton.mp ht
        subst h1
        exact Except.noConfusion hc)
      rfl
  exact h.2 rfl
